import Mathlib

/-!
Shallow embedding of `tools/sbom/generate-sbom.py` (SBOM generator for the
Android build): data model, package classification, SPDX identifier encoding,
metadata-descriptor resolution/caching, fragment building and the main
per-installed-file loop, together with theorems settling the specification
claims about them.

Python strings are modelled as Lean `String`; the string operations of the
source (`startswith`, `endswith`, `removeprefix`, `lower`, `lstrip`, `replace`,
`split(':')[0]`, `os.path.dirname`, `os.path.basename`) are given explicit
list-of-characters definitions below.  `str.lower` and `str.isalnum` are
Unicode-aware in Python; the model uses their ASCII fragments, which is all the
inputs of this tool (build paths, metadata fields) and all the claims exercise.
-/

namespace SbomGen

/-- Python `needle in s`-style prefix test: `s.startswith (p)`,
modelled as list prefix on the characters. -/
def pyStartsWith (s p : String) : Bool :=
  p.data.isPrefixOf s.data

/-- Python `s.endswith (p)`, modelled as list suffix on the characters. -/
def pyEndsWith (s p : String) : Bool :=
  p.data.isSuffixOf s.data

/-- Python `s.removeprefix (p)`: drop `p` if it is a prefix, else unchanged. -/
def pyRemovePfx (s p : String) : String :=
  if pyStartsWith s p then ⟨s.data.drop p.data.length⟩ else s

/-- Python `s.lower ()` (ASCII fragment). -/
def pyLower (s : String) : String :=
  ⟨s.data.map Char.toLower⟩

/-- Python `s.lstrip ('-')`: drop every leading `-`. -/
def pyLstripDash (s : String) : String :=
  ⟨s.data.dropWhile (· = '-')⟩

/-- Python `s.replace (a, b)` for one-character `a`, `b`. -/
def pyReplaceChar (s : String) (a b : Char) : String :=
  ⟨s.data.map (fun c => if c = a then b else c)⟩

/-- Python `s.split (c)[0]`: the part before the first occurrence of `c`
(the whole string when `c` does not occur). -/
def pySplitHead (s : String) (c : Char) : String :=
  ⟨s.data.takeWhile (· ≠ c)⟩

/-- Python `os.path.dirname` (posix): everything before the last `/`, with
trailing slashes stripped unless the head consists of slashes only. -/
def pyDirname (s : String) : String :=
  let headRev := s.data.reverse.dropWhile (· ≠ '/')
  if headRev.isEmpty then ""
  else if headRev.all (· = '/') then ⟨headRev.reverse⟩
  else ⟨(headRev.dropWhile (· = '/')).reverse⟩

/-- Python `os.path.basename` (posix): everything after the last `/`. -/
def pyBasename (s : String) : String :=
  ⟨(s.data.reverse.takeWhile (· ≠ '/')).reverse⟩

/-- Lowercase hexadecimal digit for `n < 16`, as used by `bytes.hex ()`. -/
def hexDigit (n : Nat) : Char :=
  if n < 10 then Char.ofNat ('0'.toNat + n) else Char.ofNat ('a'.toNat + (n - 10))

/-- UTF-8 encoding of one character, as `c.encode ('utf-8')`. -/
def utf8Bytes (c : Char) : List Nat :=
  let n := c.toNat
  if n < 0x80 then [n]
  else if n < 0x800 then [0xC0 + n / 64, 0x80 + n % 64]
  else if n < 0x10000 then [0xE0 + n / 4096, 0x80 + (n / 64) % 64, 0x80 + n % 64]
  else [0xF0 + n / 0x40000, 0x80 + (n / 4096) % 64, 0x80 + (n / 64) % 64, 0x80 + n % 64]

/-- Lowercase hex string of a byte list, as `bytes.hex ()`. -/
def bytesHex (bs : List Nat) : List Char :=
  bs.foldr (fun b acc => hexDigit (b / 16) :: hexDigit (b % 16) :: acc) []

/-! Constants of the source file. -/

def PKG_SOURCE : String := "SOURCE"
def PKG_UPSTREAM : String := "UPSTREAM"
def PKG_PREBUILT : String := "PREBUILT"
def NVD_CPE23 : String := "NVD-CPE2.3:"

/-! Data model.

`InstalledFileRecord`: one row of the sbom-metadata CSV, read by
`csv.DictReader`; every field is a string and Python truthiness of a field is
non-emptiness. -/

structure FileMetadata where
  installed_file : String
  module_path : String
  soong_module_type : String
  is_platform_generated : String
  product_copy_files : String
  kernel_module_copy_files : String
  is_prebuilt_make_module : String
deriving DecidableEq, Repr

/-- Modelled from the spec: the external metadata descriptor schema
(`metadata_file_pb2`) — a reference to an externally-tracked SBOM document
(URL + checksum + upstream element id); the protobuf oneof presence test
`WhichOneof ('sbom') == 'sbom_ref'` becomes `Option.isSome`. -/
structure SbomRef where
  url : String
  checksum : String
  element_id : String
deriving DecidableEq, Repr

/-- Modelled from the spec: a URL entry of the descriptor's third-party
section; `type` is the numeric protobuf enum, `HOMEPAGE = 1`. -/
structure URLProto where
  type : Nat
  value : String
deriving DecidableEq, Repr

def URL_TYPE_HOMEPAGE : Nat := 1

/-- Modelled from the spec: the `third_party` section of a descriptor —
upstream version, homepage, URL list, security tags and optional external
SBOM reference; absent proto3 string fields read as `""`. -/
structure ThirdPartyProto where
  version : String
  homepage : String
  url : List URLProto
  security_tag : List String
  sbom_ref : Option SbomRef
deriving DecidableEq, Repr

/-- Modelled from the spec: a parsed METADATA descriptor — declared package
name plus the third-party section. -/
structure Metadata where
  name : String
  third_party : ThirdPartyProto
deriving DecidableEq, Repr

def emptyMetadata : Metadata :=
  { name := "", third_party := { version := "", homepage := "", url := [], security_tag := [], sbom_ref := none } }

/-- Modelled from the spec: `sbom_data` external-reference categories. -/
inductive ExternalRefCategory where
  | SECURITY
  | PACKAGE_MANAGER
deriving DecidableEq, Repr

/-- Modelled from the spec: `sbom_data` external-reference types. -/
inductive ExternalRefType where
  | cpe22Type
  | cpe23Type
deriving DecidableEq, Repr

/-- Modelled from the spec: `sbom_data.PackageExternalRef`. -/
structure PackageExternalRef where
  category : ExternalRefCategory
  type : ExternalRefType
  locator : String
deriving DecidableEq, Repr

/-- Modelled from the spec: `sbom_data.Package` — the fields this tool sets;
`none` in an `Option` field is an unset (Python `None`) field. -/
structure Package where
  id : String
  name : String
  version : Option String := none
  supplier : Option String := none
  download_location : Option String := none
  external_refs : List PackageExternalRef := []
deriving DecidableEq, Repr

/-- Modelled from the spec: `sbom_data.File` — id, path and content checksum. -/
structure File where
  id : String
  name : String
  checksum : String
deriving DecidableEq, Repr

/-- Modelled from the spec: `sbom_data.RelationshipType` — the two kinds
this tool emits. -/
inductive RelationshipType where
  | VARIANT_OF
  | GENERATED_FROM
deriving DecidableEq, Repr

/-- Modelled from the spec: `sbom_data.Relationship` — a typed edge. -/
structure Relationship where
  id1 : String
  relationship : RelationshipType
  id2 : String
deriving DecidableEq, Repr

/-- Modelled from the spec: `sbom_data.DocumentExternalReference`. -/
structure DocumentExternalReference where
  id : String
  uri : String
  checksum : String
deriving DecidableEq, Repr

/-- Modelled from the spec: the sentinel download locations of `sbom_data`
(intentionally withheld / not asserted). -/
def VALUE_NONE : String := "NONE"

def VALUE_NOASSERTION : String := "NOASSERTION"

/-- Modelled from the spec: stable ids of the product and platform packages. -/
def SPDXID_PRODUCT : String := "SPDXRef-PRODUCT"

def SPDXID_PLATFORM : String := "SPDXRef-PLATFORM"

def PACKAGE_NAME_PRODUCT : String := "PRODUCT"

def PACKAGE_NAME_PLATFORM : String := "PLATFORM"

/-! The Identifier Encoder: `encode_for_spdxid`. -/

/-- Encoding of one character of `encode_for_spdxid`'s loop body: alphanumerics
and `.`/`-` pass through, `_`/`@`/`/` become `-`, anything else becomes
`0x` followed by the hex of its UTF-8 bytes. -/
def encodeChar (c : Char) : List Char :=
  if c.isAlphanum ∨ c = '.' ∨ c = '-' then [c]
  else if c = '_' ∨ c = '@' ∨ c = '/' then ['-']
  else '0' :: 'x' :: bytesHex (utf8Bytes c)

/-- Simple encode for string values used in SPDXID, restricted to the charset
`A-Za-z0-9.-`; leading `-` are stripped at the end. -/
def encode_for_spdxid (s : String) : String :=
  pyLstripDash ⟨(s.data.map encodeChar).flatten⟩

def new_package_id (package_name : String) (type : String) : String :=
  "SPDXRef-" ++ type ++ "-" ++ encode_for_spdxid package_name

def new_file_id (file_path : String) : String :=
  "SPDXRef-" ++ encode_for_spdxid file_path

/-! The Package Classifier. -/

/-- Fixed allow-list of Soong prebuilt module types (`is_soong_prebuilt_module`). -/
def soongPrebuiltModuleTypes : List String :=
  ["android_app_import", "android_library_import", "cc_prebuilt_binary", "cc_prebuilt_library",
   "cc_prebuilt_library_headers", "cc_prebuilt_library_shared", "cc_prebuilt_library_static", "cc_prebuilt_object",
   "dex_import", "java_import", "java_sdk_library_import", "java_system_modules_import",
   "libclang_rt_prebuilt_library_static", "libclang_rt_prebuilt_library_shared", "llvm_prebuilt_library_static",
   "ndk_prebuilt_object", "ndk_prebuilt_shared_stl", "nkd_prebuilt_static_stl", "prebuilt_apex",
   "prebuilt_bootclasspath_fragment", "prebuilt_dsp", "prebuilt_firmware", "prebuilt_kernel_modules",
   "prebuilt_rfsa", "prebuilt_root", "rust_prebuilt_dylib", "rust_prebuilt_library", "rust_prebuilt_rlib",
   "vndk_prebuilt_shared"]

def is_soong_prebuilt_module (file_metadata : FileMetadata) : Bool :=
  decide (file_metadata.soong_module_type ≠ "") &&
    soongPrebuiltModuleTypes.contains file_metadata.soong_module_type

def is_prebuilt_package (file_metadata : FileMetadata) : Bool :=
  if file_metadata.module_path ≠ "" then
    pyStartsWith file_metadata.module_path "prebuilts/" ||
      is_soong_prebuilt_module file_metadata ||
      decide (file_metadata.is_prebuilt_make_module ≠ "")
  else if file_metadata.kernel_module_copy_files ≠ "" &&
      !pyStartsWith file_metadata.kernel_module_copy_files "ANDROID-GEN:" then
    true
  else
    false

def is_source_package (file_metadata : FileMetadata) : Bool :=
  pyStartsWith file_metadata.module_path "external/" && !is_prebuilt_package file_metadata

/-- The four Platform catch-all branches of the `elif` chain in `main`
(lines 503-526): owning module path present or platform-generated flag set;
product copy files; the `.fsv_meta` suffix; an `ANDROID-GEN` kernel-module
copy source.  Each of them attaches the file to the platform package. -/
inductive PlatformBranch where
  | modulePathOrPlatformGenerated
  | productCopyFiles
  | fsvMeta
  | androidGenKernel
deriving DecidableEq, Repr

/-- First Platform branch whose condition holds, in the `elif` order of the
source; `none` when no branch applies (then the record contributes no
relationship). -/
def platform_branch (file_metadata : FileMetadata) : Option PlatformBranch :=
  if file_metadata.module_path ≠ "" ∨ file_metadata.is_platform_generated ≠ "" then
    some .modulePathOrPlatformGenerated
  else if file_metadata.product_copy_files ≠ "" then
    some .productCopyFiles
  else if pyEndsWith file_metadata.installed_file ".fsv_meta" then
    some .fsvMeta
  else if pyStartsWith file_metadata.kernel_module_copy_files "ANDROID-GEN" then
    some .androidGenKernel
  else
    none

/-- Overall classification of one record, following the branch structure of
`main` and `get_sbom_fragments`: Source and Prebuilt are tested first,
Platform is the catch-all. -/
inductive Classification where
  | source
  | prebuilt
  | platform (branch : PlatformBranch)
deriving DecidableEq, Repr

def classify (file_metadata : FileMetadata) : Option Classification :=
  if is_source_package file_metadata then some .source
  else if is_prebuilt_package file_metadata then some .prebuilt
  else (platform_branch file_metadata).map .platform

/-! Metadata getters.  The run-scoped dict `metadata_file_protos` is passed to
the pure getters as a total map `protos : String → Metadata`; in the main loop
it is realised from the association-list cache (the key is always present
there when the path is non-empty, because `report_metadata_file` stores it
first). -/

def get_source_package_info (protos : String → Metadata) (file_metadata : FileMetadata)
    (metadata_file_path : String) : String × List PackageExternalRef :=
  if metadata_file_path = "" then (file_metadata.module_path, [])
  else
    let metadata_proto := protos metadata_file_path
    let external_refs := metadata_proto.third_party.security_tag.foldl (fun refs tag =>
      if pyStartsWith (pyLower tag) (pyLower (NVD_CPE23 ++ "cpe:2.3:")) then
        refs ++ [{ category := .SECURITY, type := .cpe23Type, locator := pyRemovePfx tag NVD_CPE23 }]
      else if pyStartsWith (pyLower tag) (pyLower (NVD_CPE23 ++ "cpe:/")) then
        refs ++ [{ category := .SECURITY, type := .cpe22Type, locator := pyRemovePfx tag NVD_CPE23 }]
      else refs) []
    if metadata_proto.name ≠ "" then (metadata_proto.name, external_refs)
    else (pyBasename metadata_file_path, external_refs)

/-- Name of a prebuilt package; `none` models the `AttributeError` Python would
raise on `None.removeprefix` when no branch binds a name. -/
def get_prebuilt_package_name (protos : String → Metadata) (file_metadata : FileMetadata)
    (metadata_file_path : String) : Option String :=
  let name : Option String :=
    if metadata_file_path ≠ "" then
      let metadata_proto := protos metadata_file_path
      if metadata_proto.name ≠ "" then some metadata_proto.name
      else some metadata_file_path
    else if file_metadata.module_path ≠ "" then some file_metadata.module_path
    else if file_metadata.kernel_module_copy_files ≠ "" then
      some (pyDirname (pySplitHead file_metadata.kernel_module_copy_files ':'))
    else none
  name.map (fun n => pyReplaceChar (pyRemovePfx n "prebuilts/") '/' '-')

/-- Walk upward from the owning directory until a directory with a METADATA
file is found; `none` models divergence of the Python `while` loop (possible
only for an all-slash path, where `os.path.dirname` stops shrinking). -/
def search_metadata_path (metadataExists : String → Bool) (metadata_path : String) : Option String :=
  if metadata_path = "" then some ""
  else if metadataExists (metadata_path ++ "/METADATA") then some metadata_path
  else
    let d := pyDirname metadata_path
    if _h : d.length < metadata_path.length then search_metadata_path metadataExists d
    else none
termination_by metadata_path.length

def get_metadata_file_path (metadataExists : String → Bool)
    (file_metadata : FileMetadata) : Option String :=
  let metadata_path :=
    if file_metadata.module_path ≠ "" then file_metadata.module_path
    else if file_metadata.kernel_module_copy_files ≠ "" then
      pyDirname (pySplitHead file_metadata.kernel_module_copy_files ':')
    else ""
  search_metadata_path metadataExists metadata_path

def get_package_version (protos : String → Metadata) (metadata_file_path : String) : Option String :=
  if metadata_file_path = "" then none
  else some (protos metadata_file_path).third_party.version

def get_package_homepage (protos : String → Metadata) (metadata_file_path : String) : Option String :=
  if metadata_file_path = "" then none
  else
    let metadata_proto := protos metadata_file_path
    if metadata_proto.third_party.homepage ≠ "" then some metadata_proto.third_party.homepage
    else ((metadata_proto.third_party.url.find? (fun url => url.type = URL_TYPE_HOMEPAGE)).map (·.value))

def get_package_download_location (protos : String → Metadata) (metadata_file_path : String) : Option String :=
  if metadata_file_path = "" then none
  else
    let metadata_proto := protos metadata_file_path
    match (metadata_proto.third_party.url.insertionSort (fun u v => u.type ≤ v.type)) with
    | [] => none
    | u0 :: rest =>
      if u0.type ≠ URL_TYPE_HOMEPAGE then some u0.value
      else
        match rest with
        | u1 :: _ => some u1.value
        | [] => none

/-! The Fragment Builder: `get_sbom_fragments`.  The outer `Option` is `none`
exactly when `get_prebuilt_package_name` would crash. -/

def get_sbom_fragments (build_version product_mfr : String) (protos : String → Metadata)
    (installed_file_metadata : FileMetadata) (metadata_file_path : String) :
    Option (Option DocumentExternalReference × List Package × List Relationship) :=
  let homepage := get_package_homepage protos metadata_file_path
  let version := get_package_version protos metadata_file_path
  let download_location := get_package_download_location protos metadata_file_path
  if is_source_package installed_file_metadata then
    let info := get_source_package_info protos installed_file_metadata metadata_file_path
    let name := info.1
    let external_refs := info.2
    let source_package_id := new_package_id name PKG_SOURCE
    let source_package : Package :=
      { id := source_package_id, name := name, version := some build_version,
        download_location := some VALUE_NONE,
        supplier := some ("Organization: " ++ product_mfr),
        external_refs := external_refs }
    let upstream_package_id := new_package_id name PKG_UPSTREAM
    let upstream_package : Package :=
      { id := upstream_package_id, name := name, version := version,
        supplier := some (match homepage with
          | some hp => "Organization: " ++ hp
          | none => VALUE_NOASSERTION),
        download_location := download_location }
    some (none, [source_package, upstream_package],
      [{ id1 := source_package_id, relationship := .VARIANT_OF, id2 := upstream_package_id }])
  else if is_prebuilt_package installed_file_metadata then
    match get_prebuilt_package_name protos installed_file_metadata metadata_file_path with
    | none => none
    | some name =>
      let prebuilt_package_id := new_package_id name PKG_PREBUILT
      let prebuilt_package : Package :=
        { id := prebuilt_package_id, name := name,
          download_location := some VALUE_NONE,
          version := some build_version,
          supplier := some ("Organization: " ++ product_mfr) }
      if metadata_file_path ≠ "" then
        match (protos metadata_file_path).third_party.sbom_ref with
        | some sr =>
          if sr.url ≠ "" ∧ sr.checksum ≠ "" ∧ sr.element_id ≠ "" then
            let doc_ref_id := "DocumentRef-" ++ PKG_UPSTREAM ++ "-" ++ encode_for_spdxid name
            some (some { id := doc_ref_id, uri := sr.url, checksum := sr.checksum },
              [prebuilt_package],
              [{ id1 := prebuilt_package_id, relationship := .VARIANT_OF,
                 id2 := doc_ref_id ++ ":" ++ sr.element_id }])
          else some (none, [prebuilt_package], [])
        | none => some (none, [prebuilt_package], [])
      else some (none, [prebuilt_package], [])
  else some (none, [], [])

/-! The Integrity Computer: `generate_package_verification_code`.  The external
`hashlib.sha1` digest is the parameter `h`; the function sorts the checksum
strings and concatenates them with no delimiter before hashing. -/

def sortStrings (l : List String) : List String :=
  l.insertionSort (· ≤ ·)

def generate_package_verification_code (h : String → String) (files : List File) : String :=
  h (String.join (sortStrings (files.map (·.checksum))))

/-! The Diagnostics Collector: the six report categories of `main`. -/

structure Report where
  noMetadata : List String
  noMetadataFile : List String
  metadataIncomplete : List String
  unknownTag : List String
  fileNotExist : List String
  metadataFound : List String
deriving DecidableEq, Repr

def emptyReport : Report :=
  { noMetadata := [], noMetadataFile := [], metadataIncomplete := [],
    unknownTag := [], fileNotExist := [], metadataFound := [] }

/-! Mutable state of one run: the document under construction (packages,
files, relationships, external references), the product package's file-id
list, the run-scoped descriptor cache `metadata_file_protos` (an association
list, insertion-ordered like a Python dict) with a counter of external-reader
parse invocations, and the report. -/

structure SbomState where
  packages : List Package
  files : List File
  relationships : List Relationship
  external_refs : List DocumentExternalReference
  product_file_ids : List String
  protos : List (String × Metadata)
  parseCount : Nat
  report : Report
deriving DecidableEq, Repr

/-- Modelled from the spec: `Document.add_package` of the Graph Assembler
preserves first-seen identity when the same identifier recurs. -/
def addPackage (s : SbomState) (p : Package) : SbomState :=
  if s.packages.any (fun q => q.id = p.id) then s
  else { s with packages := s.packages ++ [p] }

/-- Modelled from the spec: `Document.add_relationship` appends in insertion
order. -/
def addRelationship (s : SbomState) (rel : Relationship) : SbomState :=
  { s with relationships := s.relationships ++ [rel] }

/-- Modelled from the spec: `Document.add_external_ref` appends in insertion
order. -/
def addExternalRef (s : SbomState) (e : DocumentExternalReference) : SbomState :=
  { s with external_refs := s.external_refs ++ [e] }

/-- Realisation of the `metadata_file_protos` dict lookup over the cache. -/
def protoFun (cache : List (String × Metadata)) : String → Metadata :=
  fun path => (cache.lookup path).getD emptyMetadata

/-- Validation of the metadata generated by Make for an installed file;
returns the boolean plus the (possibly extended) report. -/
def installed_file_has_metadata (installed_file_metadata : FileMetadata)
    (report : Report) : Bool × Report :=
  if installed_file_metadata.module_path = "" ∧
      installed_file_metadata.product_copy_files = "" ∧
      installed_file_metadata.kernel_module_copy_files = "" ∧
      installed_file_metadata.is_platform_generated = "" ∧
      ¬ pyEndsWith installed_file_metadata.installed_file ".fsv_meta" then
    (false, { report with noMetadata := report.noMetadata ++ [installed_file_metadata.installed_file] })
  else
    (true, report)

/-- Resolution bookkeeping for one record (`report_metadata_file`): records the
found descriptor, parses it via the external reader `parse` (always — the
parse is not guarded by the cache check), and on first sight of the directory
stores it in the cache and validates name, version and security tags. -/
def report_metadata_file (parse : String → Metadata) (metadata_file_path : String)
    (installed_file_metadata : FileMetadata) (s : SbomState) : SbomState :=
  if metadata_file_path ≠ "" then
    let r1 := { s.report with metadataFound := s.report.metadataFound ++
      ["installed_file: " ++ installed_file_metadata.installed_file ++
       ", module_path: " ++ installed_file_metadata.module_path ++
       ", METADATA file: " ++ metadata_file_path ++ "/METADATA"] }
    let package_metadata := parse metadata_file_path
    if (s.protos.lookup metadata_file_path).isNone then
      let r2 := if package_metadata.name = "" then
          { r1 with metadataIncomplete := r1.metadataIncomplete ++
            [metadata_file_path ++ "/METADATA does not has \"name\""] }
        else r1
      let r3 := if package_metadata.third_party.version = "" then
          { r2 with metadataIncomplete := r2.metadataIncomplete ++
            [metadata_file_path ++ "/METADATA does not has \"third_party.version\""] }
        else r2
      let r4 := package_metadata.third_party.security_tag.foldl (fun r tag =>
        if pyStartsWith tag NVD_CPE23 then r
        else { r with unknownTag := r.unknownTag ++
          ["Unknown security tag type: " ++ tag ++ " in " ++ metadata_file_path ++ "/METADATA"] }) r3
      { s with
        report := r4
        parseCount := s.parseCount + 1
        protos := s.protos ++ [(metadata_file_path, package_metadata)] }
    else
      { s with report := r1, parseCount := s.parseCount + 1 }
  else
    { s with report := { s.report with noMetadataFile := s.report.noMetadataFile ++
      ["installed_file: " ++ installed_file_metadata.installed_file ++
       ", module_path: " ++ installed_file_metadata.module_path] } }

/-! The main per-record loop.  External collaborators are collected in `Env`:
the command-line arguments the loop reads, the filesystem existence tests, the
file-content checksummer (`checksum`, which prefixes `product_out_dir` and
hashes bytes or symlink target) and the external descriptor reader (`parse`,
the `text_format.Parse` of `<path>/METADATA`; a malformed descriptor is a
fatal abort of the whole run, so `parse` is total here). -/

structure Env where
  build_version : String
  product_mfr : String
  product_out_dir : String
  fileExists : String → Bool
  checksum : String → String
  metadataExists : String → Bool
  parse : String → Metadata

/-- Body of the `for installed_file_metadata in reader` loop of `main`
(lines 468-526 of the source); `none` models a crash or divergence of the
body (unreachable on the inputs the claims are about). -/
def process_installed_file (env : Env) (s : SbomState) (installed_file_metadata : FileMetadata) :
    Option SbomState :=
  let installed_file := installed_file_metadata.installed_file
  match installed_file_has_metadata installed_file_metadata s.report with
  | (false, r) => some { s with report := r }
  | (true, r) =>
    if ¬ env.fileExists (env.product_out_dir ++ "/" ++ installed_file) then
      some { s with report := { r with fileNotExist := r.fileNotExist ++ [installed_file] } }
    else
      let file_id := new_file_id installed_file
      let s1 := { s with
        report := r
        files := s.files ++ [{ id := file_id, name := installed_file, checksum := env.checksum installed_file }]
        product_file_ids := s.product_file_ids ++ [file_id] }
      if is_source_package installed_file_metadata || is_prebuilt_package installed_file_metadata then
        match get_metadata_file_path env.metadataExists installed_file_metadata with
        | none => none
        | some metadata_file_path =>
          let s2 := report_metadata_file env.parse metadata_file_path installed_file_metadata s1
          match get_sbom_fragments env.build_version env.product_mfr (protoFun s2.protos)
              installed_file_metadata metadata_file_path with
          | none => none
          | some (external_doc_ref, pkgs, rels) =>
            match pkgs with
            | [] => some s2
            | fork_package :: _ =>
              let s3 := match external_doc_ref with
                | some e => addExternalRef s2 e
                | none => s2
              let s4 := pkgs.foldl addPackage s3
              let s5 := rels.foldl addRelationship s4
              some (addRelationship s5
                { id1 := file_id, relationship := .GENERATED_FROM, id2 := fork_package.id })
      else
        match platform_branch installed_file_metadata with
        | some _ =>
          some (addRelationship s1
            { id1 := file_id, relationship := .GENERATED_FROM, id2 := SPDXID_PLATFORM })
        | none => some s1

/-- The whole scan over the CSV rows. -/
def process_sbom (env : Env) (records : List FileMetadata) (s : SbomState) : Option SbomState :=
  records.foldlM (process_installed_file env) s

/-- Document and report state as set up by `main` before the scan: the product
package and the platform package are pre-inserted, everything else is empty. -/
def initial_state (build_version product_mfr : String) : SbomState :=
  { packages :=
      [{ id := SPDXID_PRODUCT, name := PACKAGE_NAME_PRODUCT,
         download_location := some VALUE_NONE, version := some build_version,
         supplier := some ("Organization: " ++ product_mfr) },
       { id := SPDXID_PLATFORM, name := PACKAGE_NAME_PLATFORM,
         download_location := some VALUE_NONE, version := some build_version,
         supplier := some ("Organization: " ++ product_mfr) }]
    files := []
    relationships := []
    external_refs := []
    product_file_ids := []
    protos := []
    parseCount := 0
    report := emptyReport }

/-! Helper lemmas. -/

/-- Characters kept verbatim by the Identifier Encoder. -/
def keepChar (c : Char) : Prop := c.isAlphanum ∨ c = '.' ∨ c = '-'

instance (c : Char) : Decidable (keepChar c) := by
  unfold keepChar; infer_instance

theorem encodeChar_keep {c : Char} (h : keepChar c) : encodeChar c = [c] := by
  unfold encodeChar keepChar at *
  rw [if_pos h]

theorem flatten_map_encodeChar_of_keep {l : List Char} (h : ∀ c ∈ l, keepChar c) :
    (l.map encodeChar).flatten = l := by
  induction l with
  | nil => rfl
  | cons c l ih =>
    simp only [List.map_cons, List.flatten_cons]
    rw [encodeChar_keep (h c (List.mem_cons_self c l)),
      ih (fun d hd => h d (List.mem_cons_of_mem c hd))]
    rfl

theorem dropWhile_idem (p : Char → Bool) (l : List Char) :
    (l.dropWhile p).dropWhile p = l.dropWhile p := by
  induction l with
  | nil => rfl
  | cons c l ih =>
    by_cases h : p c
    · rw [List.dropWhile_cons_of_pos h, ih]
    · rw [List.dropWhile_cons_of_neg (by simpa using h),
        List.dropWhile_cons_of_neg (by simpa using h)]

theorem isPrefixOf_dash_dropWhile (l : List Char) :
    ['-'].isPrefixOf (l.dropWhile (· = '-')) = false := by
  induction l with
  | nil => rfl
  | cons c l ih =>
    by_cases h : c = '-'
    · rw [List.dropWhile_cons_of_pos (by simpa using h)]
      exact ih
    · rw [List.dropWhile_cons_of_neg (by simpa using h)]
      simp [List.isPrefixOf, beq_iff_eq]
      intro hc
      exact absurd hc.symm h

theorem mem_dropWhile {p : Char → Bool} {l : List Char} {c : Char}
    (h : c ∈ l.dropWhile p) : c ∈ l :=
  (List.dropWhile_sublist p).mem h

/-- C6: the Identifier Encoder is idempotent on every string restricted to the
character set `A-Za-z0-9.-`, and for every input string its output never
begins with `-`. -/
theorem encode_for_spdxid_idempotent_no_leading_dash (s : String)
    (hres : ∀ c ∈ s.data, keepChar c) :
    encode_for_spdxid (encode_for_spdxid s) = encode_for_spdxid s ∧
    ∀ t : String, pyStartsWith (encode_for_spdxid t) "-" = false := by
  constructor
  · have hs : encode_for_spdxid s = ⟨s.data.dropWhile (· = '-')⟩ := by
      unfold encode_for_spdxid pyLstripDash
      rw [flatten_map_encodeChar_of_keep hres]
    have hres' : ∀ c ∈ s.data.dropWhile (· = '-'), keepChar c :=
      fun c hc => hres c (mem_dropWhile hc)
    rw [hs]
    unfold encode_for_spdxid pyLstripDash
    rw [flatten_map_encodeChar_of_keep hres']
    exact congrArg String.mk (dropWhile_idem _ _)
  · intro t
    unfold encode_for_spdxid pyLstripDash pyStartsWith
    exact isPrefixOf_dash_dropWhile _

/-- Witness for C6 at a concrete restricted string. -/
theorem encode_for_spdxid_idempotent_no_leading_dash_witness :
    encode_for_spdxid (encode_for_spdxid "--ab.c-") = encode_for_spdxid "--ab.c-" ∧
    pyStartsWith (encode_for_spdxid "-x-") "-" = false := by
  refine ⟨(encode_for_spdxid_idempotent_no_leading_dash "--ab.c-" (by decide)).1, ?_⟩
  exact (encode_for_spdxid_idempotent_no_leading_dash "--ab.c-" (by decide)).2 "-x-"

/-- C3: the package verification code is invariant under permutation of the
input file list, because the checksum strings are sorted before hashing. -/
theorem generate_package_verification_code_perm_invariant
    (h : String → String) (files1 files2 : List File) (hp : files1.Perm files2) :
    generate_package_verification_code h files1 =
      generate_package_verification_code h files2 := by
  unfold generate_package_verification_code sortStrings
  have hperm : List.Perm ((files1.map (·.checksum)).insertionSort (· ≤ ·))
      ((files2.map (·.checksum)).insertionSort (· ≤ ·)) :=
    (List.perm_insertionSort _ _).trans ((hp.map _).trans (List.perm_insertionSort _ _).symm)
  rw [List.eq_of_perm_of_sorted hperm (List.sorted_insertionSort _ _) (List.sorted_insertionSort _ _)]

/-- Witness for C3 at a concrete permutation. -/
theorem generate_package_verification_code_perm_invariant_witness :
    generate_package_verification_code id
        [{ id := "i1", name := "a", checksum := "SHA1: 02" },
         { id := "i2", name := "b", checksum := "SHA1: 01" }] =
      generate_package_verification_code id
        [{ id := "i2", name := "b", checksum := "SHA1: 01" },
         { id := "i1", name := "a", checksum := "SHA1: 02" }] :=
  generate_package_verification_code_perm_invariant id _ _ (List.Perm.swap _ _ _)

theorem pyStartsWith_mono {s p q : String} (h : pyStartsWith s p = true)
    (hqp : q.data.IsPrefix p.data) : pyStartsWith s q = true := by
  unfold pyStartsWith at *
  rw [List.isPrefixOf_iff_prefix] at *
  exact hqp.trans h

theorem has_metadata_cond {fm : FileMetadata} {r : Report}
    (hmeta : (installed_file_has_metadata fm r).1 = true) :
    ¬ (fm.module_path = "" ∧ fm.product_copy_files = "" ∧
       fm.kernel_module_copy_files = "" ∧ fm.is_platform_generated = "" ∧
       ¬ pyEndsWith fm.installed_file ".fsv_meta") := by
  intro hcond
  rw [installed_file_has_metadata, if_pos hcond] at hmeta
  exact Bool.false_ne_true hmeta

theorem is_prebuilt_kernel_of_no_module {fm : FileMetadata}
    (hm : fm.module_path = "") (hk : fm.kernel_module_copy_files ≠ "")
    (hpre : is_prebuilt_package fm = false) :
    pyStartsWith fm.kernel_module_copy_files "ANDROID-GEN:" = true := by
  rw [is_prebuilt_package, if_neg (by simp [hm])] at hpre
  by_contra hng
  rw [if_pos (by simp [hk, hng])] at hpre
  exact Bool.true_eq_false.mp hpre

/-- C2: classification is total and mutually exclusive on every record that
passes the has-metadata check — `is_source_package` and `is_prebuilt_package`
are never both true, every record that is neither Source nor Prebuilt is
caught by exactly one Platform branch (the first matching one of the `elif`
chain), and `classify` always yields a result. -/
theorem classification_total_mutually_exclusive (fm : FileMetadata) (r : Report)
    (hmeta : (installed_file_has_metadata fm r).1 = true) :
    (is_source_package fm && is_prebuilt_package fm) = false ∧
    (is_source_package fm = false → is_prebuilt_package fm = false →
      (platform_branch fm).isSome = true) ∧
    (classify fm).isSome = true := by
  have hcond := has_metadata_cond hmeta
  have hplat : is_source_package fm = false → is_prebuilt_package fm = false →
      (platform_branch fm).isSome = true := by
    intro _ hpre
    rw [platform_branch]
    by_cases h1 : fm.module_path ≠ "" ∨ fm.is_platform_generated ≠ ""
    · rw [if_pos h1]; rfl
    push_neg at h1
    rw [if_neg (by simp [h1.1, h1.2])]
    by_cases h2 : fm.product_copy_files ≠ ""
    · rw [if_pos h2]; rfl
    rw [if_neg h2]
    push_neg at h2
    by_cases h3 : pyEndsWith fm.installed_file ".fsv_meta" = true
    · rw [if_pos h3]; rfl
    have hk : fm.kernel_module_copy_files ≠ "" := by
      intro hkk
      exact hcond ⟨h1.1, h2, hkk, h1.2, fun hf => h3 hf⟩
    have hng := is_prebuilt_kernel_of_no_module h1.1 hk hpre
    rw [if_neg (by simpa using h3),
      if_pos (pyStartsWith_mono hng (by decide))]
    rfl
  refine ⟨?_, hplat, ?_⟩
  · rw [is_source_package]
    cases hpre : is_prebuilt_package fm <;> simp [hpre]
  · rw [classify]
    by_cases hsrc : is_source_package fm = true
    · rw [if_pos hsrc]; rfl
    rw [if_neg hsrc]
    by_cases hpre : is_prebuilt_package fm = true
    · rw [if_pos hpre]; rfl
    rw [if_neg hpre]
    rw [Option.isSome_map']
    exact hplat (Bool.not_eq_true _ ▸ hsrc) (Bool.not_eq_true _ ▸ hpre)

/-- Witness for C2 at a concrete Platform record. -/
theorem classification_total_mutually_exclusive_witness :
    (installed_file_has_metadata
      { installed_file := "bin/c", module_path := "frameworks/base", soong_module_type := "",
        is_platform_generated := "", product_copy_files := "", kernel_module_copy_files := "",
        is_prebuilt_make_module := "" } emptyReport).1 = true ∧
    (classify
      { installed_file := "bin/c", module_path := "frameworks/base", soong_module_type := "",
        is_platform_generated := "", product_copy_files := "", kernel_module_copy_files := "",
        is_prebuilt_make_module := "" }).isSome = true := by
  refine ⟨by decide, ?_⟩
  exact (classification_total_mutually_exclusive _ emptyReport (by decide)).2.2

/-- C9: for every Prebuilt-classified record `get_prebuilt_package_name` binds
a name — the `None` branch is unreachable, the function is total there. -/
theorem get_prebuilt_package_name_isSome (protos : String → Metadata)
    (fm : FileMetadata) (metadata_file_path : String)
    (hpre : is_prebuilt_package fm = true) :
    (get_prebuilt_package_name protos fm metadata_file_path).isSome = true := by
  rw [get_prebuilt_package_name]
  rw [Option.isSome_map']
  by_cases hp : metadata_file_path ≠ ""
  · rw [if_pos hp]
    by_cases hn : (protos metadata_file_path).name ≠ ""
    · rw [if_pos hn]; rfl
    · rw [if_neg hn]; rfl
  rw [if_neg hp]
  by_cases hm : fm.module_path ≠ ""
  · rw [if_pos hm]; rfl
  rw [if_neg hm]
  have hk : fm.kernel_module_copy_files ≠ "" := by
    intro hkk
    rw [is_prebuilt_package, if_neg hm, if_neg (by simp [hkk])] at hpre
    exact Bool.false_ne_true hpre
  rw [if_pos hk]
  rfl

/-- Witness for C9 at a concrete kernel-module prebuilt record. -/
theorem get_prebuilt_package_name_isSome_witness :
    is_prebuilt_package
      { installed_file := "lib/modules/m.ko", module_path := "", soong_module_type := "",
        is_platform_generated := "", product_copy_files := "",
        kernel_module_copy_files := "device/foo/m.ko:lib/modules/m.ko",
        is_prebuilt_make_module := "" } = true ∧
    (get_prebuilt_package_name (fun _ => emptyMetadata)
      { installed_file := "lib/modules/m.ko", module_path := "", soong_module_type := "",
        is_platform_generated := "", product_copy_files := "",
        kernel_module_copy_files := "device/foo/m.ko:lib/modules/m.ko",
        is_prebuilt_make_module := "" } "").isSome = true := by
  refine ⟨by decide, ?_⟩
  exact get_prebuilt_package_name_isSome (fun _ => emptyMetadata) _ "" (by decide)

/-- C4: a Source-classified record with resolved descriptor name `Foo` and
version `1.2` yields exactly two packages — a SOURCE-typed package `Foo` with
the overall build version and an UPSTREAM-typed package `Foo` with version
`1.2` — plus one VARIANT_OF relationship from the SOURCE package id to the
UPSTREAM package id. -/
theorem source_fragment_round_trip (build_version product_mfr : String)
    (protos : String → Metadata) (fm : FileMetadata) (path : String)
    (hsrc : is_source_package fm = true) (hpath : path ≠ "")
    (hname : (protos path).name = "Foo")
    (hver : (protos path).third_party.version = "1.2") :
    get_sbom_fragments build_version product_mfr protos fm path =
      some (none,
        [{ id := new_package_id "Foo" PKG_SOURCE, name := "Foo",
           version := some build_version,
           supplier := some ("Organization: " ++ product_mfr),
           download_location := some VALUE_NONE,
           external_refs := (get_source_package_info protos fm path).2 },
         { id := new_package_id "Foo" PKG_UPSTREAM, name := "Foo",
           version := some "1.2",
           supplier := some (match get_package_homepage protos path with
             | some hp => "Organization: " ++ hp
             | none => VALUE_NOASSERTION),
           download_location := get_package_download_location protos path }],
        [{ id1 := new_package_id "Foo" PKG_SOURCE, relationship := .VARIANT_OF,
           id2 := new_package_id "Foo" PKG_UPSTREAM }]) := by
  have hinfo : (get_source_package_info protos fm path).1 = "Foo" := by
    rw [get_source_package_info, if_neg hpath]
    simp only []
    rw [hname, if_pos (by decide)]
  have hversion : get_package_version protos path = some "1.2" := by
    rw [get_package_version, if_neg hpath, hver]
  rw [get_sbom_fragments, if_pos hsrc]
  simp only []
  rw [hinfo, hversion]

/-- Witness for C4 at a concrete Source record and descriptor. -/
theorem source_fragment_round_trip_witness :
    get_sbom_fragments "BV" "M"
        (fun _ => { name := "Foo", third_party :=
          { version := "1.2", homepage := "", url := [], security_tag := [], sbom_ref := none } })
        { installed_file := "bin/a", module_path := "external/foo", soong_module_type := "",
          is_platform_generated := "", product_copy_files := "", kernel_module_copy_files := "",
          is_prebuilt_make_module := "" } "external/foo" =
      some (none,
        [{ id := "SPDXRef-SOURCE-Foo", name := "Foo", version := some "BV",
           supplier := some "Organization: M", download_location := some "NONE",
           external_refs := [] },
         { id := "SPDXRef-UPSTREAM-Foo", name := "Foo", version := some "1.2",
           supplier := some "NOASSERTION", download_location := none }],
        [{ id1 := "SPDXRef-SOURCE-Foo", relationship := .VARIANT_OF,
           id2 := "SPDXRef-UPSTREAM-Foo" }]) := by
  rw [source_fragment_round_trip "BV" "M" _ _ "external/foo" (by decide) (by decide) rfl rfl]
  decide

/-- C5: a Prebuilt-classified record under `prebuilts/foo/bar` with no
descriptor yields exactly one PREBUILT-typed package named `foo-bar` (prefix
stripped, separators replaced) with download location withheld and version
equal to the build version; in general the name comes from descriptor name,
then descriptor directory path, then owning module path, then kernel-module
source directory, first match wins. -/
theorem prebuilt_fragment_name_priority (build_version product_mfr : String)
    (protos : String → Metadata) (fm : FileMetadata)
    (hmp : fm.module_path = "prebuilts/foo/bar") :
    get_sbom_fragments build_version product_mfr protos fm "" =
      some (none,
        [{ id := new_package_id "foo-bar" PKG_PREBUILT, name := "foo-bar",
           version := some build_version,
           supplier := some ("Organization: " ++ product_mfr),
           download_location := some VALUE_NONE }],
        []) ∧
    (∀ (protos2 : String → Metadata) (fm2 : FileMetadata) (path2 : String),
      (path2 ≠ "" → (protos2 path2).name ≠ "" →
        get_prebuilt_package_name protos2 fm2 path2 =
          some (pyReplaceChar (pyRemovePfx (protos2 path2).name "prebuilts/") '/' '-')) ∧
      (path2 ≠ "" → (protos2 path2).name = "" →
        get_prebuilt_package_name protos2 fm2 path2 =
          some (pyReplaceChar (pyRemovePfx path2 "prebuilts/") '/' '-')) ∧
      (path2 = "" → fm2.module_path ≠ "" →
        get_prebuilt_package_name protos2 fm2 path2 =
          some (pyReplaceChar (pyRemovePfx fm2.module_path "prebuilts/") '/' '-')) ∧
      (path2 = "" → fm2.module_path = "" → fm2.kernel_module_copy_files ≠ "" →
        get_prebuilt_package_name protos2 fm2 path2 =
          some (pyReplaceChar (pyRemovePfx
            (pyDirname (pySplitHead fm2.kernel_module_copy_files ':')) "prebuilts/") '/' '-'))) := by
  constructor
  · have hsrc : is_source_package fm = false := by
      rw [is_source_package, hmp, show pyStartsWith "prebuilts/foo/bar" "external/" = false from by decide,
        Bool.false_and]
    have hpre : is_prebuilt_package fm = true := by
      rw [is_prebuilt_package, if_pos (by rw [hmp]; decide), hmp,
        show pyStartsWith "prebuilts/foo/bar" "prebuilts/" = true from by decide,
        Bool.true_or, Bool.true_or]
    have hn : get_prebuilt_package_name protos fm "" = some "foo-bar" := by
      rw [get_prebuilt_package_name, if_neg (by simp), if_pos (by rw [hmp]; decide), hmp]
      decide
    rw [get_sbom_fragments, if_neg (by simp [hsrc]), if_pos hpre, hn]
    simp only []
    rw [if_neg (by simp)]
  · intro protos2 fm2 path2
    refine ⟨?_, ?_, ?_, ?_⟩
    · intro hp hn
      rw [get_prebuilt_package_name, if_pos hp]
      simp only []
      rw [if_pos hn]
      rfl
    · intro hp hn
      rw [get_prebuilt_package_name, if_pos hp]
      simp only []
      rw [if_neg (by simp [hn])]
      rfl
    · intro hp hm
      rw [get_prebuilt_package_name, if_neg (by simp [hp]), if_pos hm]
      rfl
    · intro hp hm hk
      rw [get_prebuilt_package_name, if_neg (by simp [hp]), if_neg (by simp [hm]),
        if_pos hk]
      rfl

/-- Witness for C5 at a concrete Prebuilt record with no descriptor. -/
theorem prebuilt_fragment_name_priority_witness :
    get_sbom_fragments "BV" "M" (fun _ => emptyMetadata)
        { installed_file := "bin/p", module_path := "prebuilts/foo/bar", soong_module_type := "",
          is_platform_generated := "", product_copy_files := "", kernel_module_copy_files := "",
          is_prebuilt_make_module := "" } "" =
      some (none,
        [{ id := "SPDXRef-PREBUILT-foo-bar", name := "foo-bar", version := some "BV",
           supplier := some "Organization: M", download_location := some "NONE" }],
        []) := by
  rw [(prebuilt_fragment_name_priority "BV" "M" (fun _ => emptyMetadata) _ rfl).1]
  decide

theorem pyLower_pyStartsWith {s p : String} (h : pyStartsWith s p = true) :
    pyStartsWith (pyLower s) (pyLower p) = true := by
  unfold pyStartsWith pyLower at *
  rw [List.isPrefixOf_iff_prefix] at *
  exact h.map Char.toLower

/-- C8: security-tag locator stripping is case-sensitive while tag recognition
is case-insensitive — a tag matching `NVD-CPE2.3:cpe:2.3:` only under case
folding still yields a SECURITY/cpe23Type external reference, but with the
prefix NOT removed from the locator, and the tag is additionally reported as
an unknown security tag type; the locator is the tag minus the prefix exactly
when `NVD-CPE2.3:` matches case-sensitively. -/
theorem security_tag_case_sensitivity
    (protos parse : String → Metadata) (fm : FileMetadata) (path tag : String) (s : SbomState)
    (hpath : path ≠ "")
    (htags : (protos path).third_party.security_tag = [tag])
    (hlower : pyStartsWith (pyLower tag) (pyLower (NVD_CPE23 ++ "cpe:2.3:")) = true)
    (hexact : pyStartsWith tag NVD_CPE23 = false)
    (hptags : (parse path).third_party.security_tag = [tag])
    (hcache : s.protos.lookup path = none) :
    (get_source_package_info protos fm path).2 =
      [{ category := .SECURITY, type := .cpe23Type, locator := tag }] ∧
    (report_metadata_file parse path fm s).report.unknownTag =
      s.report.unknownTag ++
        ["Unknown security tag type: " ++ tag ++ " in " ++ path ++ "/METADATA"] ∧
    (∀ (protos2 : String → Metadata) (fm2 : FileMetadata) (path2 tag2 : String),
      path2 ≠ "" → (protos2 path2).third_party.security_tag = [tag2] →
      pyStartsWith tag2 (NVD_CPE23 ++ "cpe:2.3:") = true →
      (get_source_package_info protos2 fm2 path2).2 =
        [{ category := .SECURITY, type := .cpe23Type,
           locator := ⟨tag2.data.drop NVD_CPE23.data.length⟩ }]) := by
  refine ⟨?_, ?_, ?_⟩
  · have hrp : pyRemovePfx tag NVD_CPE23 = tag := by
      rw [pyRemovePfx, if_neg (by simp [hexact])]
    rw [get_source_package_info, if_neg hpath]
    simp only []
    rw [htags, List.foldl_cons, List.foldl_nil, if_pos hlower, hrp]
    split <;> rfl
  · rw [report_metadata_file, if_pos hpath]
    simp only []
    rw [hcache]
    rw [if_pos (by rfl)]
    rw [hptags, List.foldl_cons, List.foldl_nil, if_neg (by simp [hexact])]
    simp only []
    split <;> split <;> rfl
  · intro protos2 fm2 path2 tag2 hpath2 htags2 hfull
    have hlower2 : pyStartsWith (pyLower tag2) (pyLower (NVD_CPE23 ++ "cpe:2.3:")) = true :=
      pyLower_pyStartsWith hfull
    have hex2 : pyStartsWith tag2 NVD_CPE23 = true :=
      pyStartsWith_mono hfull (by decide)
    have hrp : pyRemovePfx tag2 NVD_CPE23 = ⟨tag2.data.drop NVD_CPE23.data.length⟩ := by
      rw [pyRemovePfx, if_pos hex2]
    rw [get_source_package_info, if_neg hpath2]
    simp only []
    rw [htags2, List.foldl_cons, List.foldl_nil, if_pos hlower2, hrp]
    split <;> rfl

/-- Witness for C8 at a concrete lowercase-prefixed security tag. -/
theorem security_tag_case_sensitivity_witness :
    (get_source_package_info
        (fun _ => { name := "Foo", third_party :=
          { version := "1.0", homepage := "", url := [],
            security_tag := ["nvd-cpe2.3:cpe:2.3:a:foo:bar:1.0"], sbom_ref := none } })
        { installed_file := "bin/a", module_path := "external/foo", soong_module_type := "",
          is_platform_generated := "", product_copy_files := "", kernel_module_copy_files := "",
          is_prebuilt_make_module := "" } "external/foo").2 =
      [{ category := .SECURITY, type := .cpe23Type,
         locator := "nvd-cpe2.3:cpe:2.3:a:foo:bar:1.0" }] := by
  exact (security_tag_case_sensitivity
    (fun _ => { name := "Foo", third_party :=
      { version := "1.0", homepage := "", url := [],
        security_tag := ["nvd-cpe2.3:cpe:2.3:a:foo:bar:1.0"], sbom_ref := none } })
    (fun _ => { name := "Foo", third_party :=
      { version := "1.0", homepage := "", url := [],
        security_tag := ["nvd-cpe2.3:cpe:2.3:a:foo:bar:1.0"], sbom_ref := none } })
    { installed_file := "bin/a", module_path := "external/foo", soong_module_type := "",
      is_platform_generated := "", product_copy_files := "", kernel_module_copy_files := "",
      is_prebuilt_make_module := "" }
    "external/foo" "nvd-cpe2.3:cpe:2.3:a:foo:bar:1.0" (initial_state "BV" "M")
    (by decide) rfl (by decide) (by decide) rfl rfl).1

/-- C7: a record with no module path, no product-copy entry, no kernel-module
entry, not platform-generated and not ending in `.fsv_meta` only appends the
installed file to the no-metadata diagnostic; it contributes no File node, no
package and no relationship. -/
theorem no_metadata_record_contributes_nothing (env : Env) (s : SbomState) (fm : FileMetadata)
    (hm : fm.module_path = "") (hpcf : fm.product_copy_files = "")
    (hk : fm.kernel_module_copy_files = "") (hpg : fm.is_platform_generated = "")
    (hfsv : pyEndsWith fm.installed_file ".fsv_meta" = false) :
    process_installed_file env s fm =
      some { s with report := { s.report with
        noMetadata := s.report.noMetadata ++ [fm.installed_file] } } := by
  rw [process_installed_file]
  simp only []
  rw [installed_file_has_metadata, if_pos ⟨hm, hpcf, hk, hpg, by simp [hfsv]⟩]

/-- Witness for C7 at a concrete attribution-free record. -/
theorem no_metadata_record_contributes_nothing_witness :
    process_installed_file
        { build_version := "BV", product_mfr := "M", product_out_dir := "out",
          fileExists := fun _ => true, checksum := fun _ => "SHA1: 00",
          metadataExists := fun _ => false, parse := fun _ => emptyMetadata }
        (initial_state "BV" "M")
        { installed_file := "bin/d", module_path := "", soong_module_type := "",
          is_platform_generated := "", product_copy_files := "", kernel_module_copy_files := "",
          is_prebuilt_make_module := "" } =
      some { initial_state "BV" "M" with report := { (initial_state "BV" "M").report with
        noMetadata := (initial_state "BV" "M").report.noMetadata ++ ["bin/d"] } } :=
  no_metadata_record_contributes_nothing _ _ _ rfl rfl rfl rfl (by decide)

/-! Development for the descriptor-cache claim.  A concrete run in which two
installed-file records resolve to the same metadata directory. -/

def cacheProbeMeta : Metadata :=
  { name := "Foo", third_party :=
    { version := "1.0", homepage := "", url := [], security_tag := [], sbom_ref := none } }

def cacheProbeFm : FileMetadata :=
  { installed_file := "bin/a", module_path := "external/foo", soong_module_type := "",
    is_platform_generated := "", product_copy_files := "", kernel_module_copy_files := "",
    is_prebuilt_make_module := "" }

def cacheProbeFm2 : FileMetadata :=
  { cacheProbeFm with installed_file := "bin/b" }

def cacheProbeS1 : SbomState :=
  report_metadata_file (fun _ => cacheProbeMeta) "external/foo" cacheProbeFm
    (initial_state "BV" "M")

def cacheProbeS2 : SbomState :=
  report_metadata_file (fun _ => cacheProbeMeta) "external/foo" cacheProbeFm2 cacheProbeS1

/-- C1 counterexample: resolving the same metadata directory for two installed
files invokes the external reader twice, not once — the parse in
`report_metadata_file` is not guarded by the cache-membership check, so the
second resolution does re-parse (the cache itself is unchanged by it). -/
theorem metadata_descriptor_reparsed_on_second_resolution :
    cacheProbeS2.parseCount = 2 ∧ cacheProbeS2.parseCount ≠ 1 ∧
    cacheProbeS2.protos = cacheProbeS1.protos := by
  decide

/-- C1 amended: the descriptor file is re-read and re-parsed on every
resolution of its directory; the run-scoped cache, keyed by resolved directory
path, only guarantees that the descriptor is stored and validated once — a
later resolution of the same directory increments the parse count but leaves
the cache, the incomplete-descriptor diagnostics and the unknown-tag
diagnostics unchanged, and later consumers are served the first-stored
descriptor. -/
theorem report_metadata_file_cache_hit (parse : String → Metadata) (path : String)
    (fm : FileMetadata) (s : SbomState) (hpath : path ≠ "")
    (hhit : (s.protos.lookup path).isSome = true) :
    (report_metadata_file parse path fm s).parseCount = s.parseCount + 1 ∧
    (report_metadata_file parse path fm s).protos = s.protos ∧
    (report_metadata_file parse path fm s).report.metadataIncomplete =
      s.report.metadataIncomplete ∧
    (report_metadata_file parse path fm s).report.unknownTag = s.report.unknownTag ∧
    protoFun (report_metadata_file parse path fm s).protos path = protoFun s.protos path := by
  obtain ⟨v, hv⟩ := Option.isSome_iff_exists.mp hhit
  rw [report_metadata_file, if_pos hpath]
  simp only []
  rw [hv]
  rw [if_neg (by simp)]
  exact ⟨rfl, rfl, rfl, rfl, rfl⟩

/-- Witness for the amended C1 at the concrete two-record run. -/
theorem report_metadata_file_cache_hit_witness :
    (report_metadata_file (fun _ => cacheProbeMeta) "external/foo" cacheProbeFm2
        cacheProbeS1).parseCount = cacheProbeS1.parseCount + 1 ∧
    (report_metadata_file (fun _ => cacheProbeMeta) "external/foo" cacheProbeFm2
        cacheProbeS1).protos = cacheProbeS1.protos := by
  have h := report_metadata_file_cache_hit (fun _ => cacheProbeMeta) "external/foo"
    cacheProbeFm2 cacheProbeS1 (by decide) (by decide)
  exact ⟨h.1, h.2.1⟩

/-! Development for the main-loop file invariant. -/

/-- State-independent part of the has-metadata/exists gate of the loop body:
a record contributes a File node iff it passes both checks. -/
def recordQualifies (env : Env) (fm : FileMetadata) : Bool :=
  (installed_file_has_metadata fm emptyReport).1 &&
    env.fileExists (env.product_out_dir ++ "/" ++ fm.installed_file)

/-- The File node the loop appends for one qualifying record. -/
def installedFileNode (env : Env) (fm : FileMetadata) : File :=
  { id := new_file_id fm.installed_file, name := fm.installed_file,
    checksum := env.checksum fm.installed_file }

theorem installed_file_has_metadata_fst (fm : FileMetadata) (r r' : Report) :
    (installed_file_has_metadata fm r).1 = (installed_file_has_metadata fm r').1 := by
  unfold installed_file_has_metadata
  split <;> rfl

theorem files_addPackage (s : SbomState) (p : Package) : (addPackage s p).files = s.files := by
  unfold addPackage; split <;> rfl

theorem ids_addPackage (s : SbomState) (p : Package) :
    (addPackage s p).product_file_ids = s.product_file_ids := by
  unfold addPackage; split <;> rfl

theorem files_addRelationship (s : SbomState) (rel : Relationship) :
    (addRelationship s rel).files = s.files := rfl

theorem ids_addRelationship (s : SbomState) (rel : Relationship) :
    (addRelationship s rel).product_file_ids = s.product_file_ids := rfl

theorem files_addExternalRef (s : SbomState) (e : DocumentExternalReference) :
    (addExternalRef s e).files = s.files := rfl

theorem ids_addExternalRef (s : SbomState) (e : DocumentExternalReference) :
    (addExternalRef s e).product_file_ids = s.product_file_ids := rfl

theorem files_report_metadata_file (parse : String → Metadata) (path : String)
    (fm : FileMetadata) (s : SbomState) :
    (report_metadata_file parse path fm s).files = s.files := by
  unfold report_metadata_file
  split
  · split <;> rfl
  · rfl

theorem ids_report_metadata_file (parse : String → Metadata) (path : String)
    (fm : FileMetadata) (s : SbomState) :
    (report_metadata_file parse path fm s).product_file_ids = s.product_file_ids := by
  unfold report_metadata_file
  split
  · split <;> rfl
  · rfl

theorem files_foldl_addPackage (l : List Package) (s : SbomState) :
    (l.foldl addPackage s).files = s.files := by
  induction l generalizing s with
  | nil => rfl
  | cons p l ih => rw [List.foldl_cons, ih, files_addPackage]

theorem ids_foldl_addPackage (l : List Package) (s : SbomState) :
    (l.foldl addPackage s).product_file_ids = s.product_file_ids := by
  induction l generalizing s with
  | nil => rfl
  | cons p l ih => rw [List.foldl_cons, ih, ids_addPackage]

theorem files_foldl_addRelationship (l : List Relationship) (s : SbomState) :
    (l.foldl addRelationship s).files = s.files := by
  induction l generalizing s with
  | nil => rfl
  | cons rel l ih => rw [List.foldl_cons, ih, files_addRelationship]

theorem ids_foldl_addRelationship (l : List Relationship) (s : SbomState) :
    (l.foldl addRelationship s).product_file_ids = s.product_file_ids := by
  induction l generalizing s with
  | nil => rfl
  | cons rel l ih => rw [List.foldl_cons, ih, ids_addRelationship]

/-- One loop iteration appends exactly the qualifying record's File node to
the document file list and its id to the product package's file-id list,
regardless of classification. -/
theorem process_installed_file_files_step (env : Env) (s : SbomState) (fm : FileMetadata)
    (t : SbomState) (h : process_installed_file env s fm = some t) :
    t.files = s.files ++
      (if recordQualifies env fm then [installedFileNode env fm] else []) ∧
    t.product_file_ids = s.product_file_ids ++
      (if recordQualifies env fm then [new_file_id fm.installed_file] else []) := by
  have hfst := installed_file_has_metadata_fst fm emptyReport s.report
  unfold process_installed_file at h
  simp only [] at h
  split at h
  · -- has-metadata check failed: only the report changes
    rename_i r heq
    have hq : recordQualifies env fm = false := by
      rw [recordQualifies, hfst, heq, Bool.false_and]
    simp only [Option.some.injEq] at h
    subst h
    rw [hq]
    exact ⟨(List.append_nil s.files).symm, (List.append_nil s.product_file_ids).symm⟩
  · rename_i r heq
    split at h
    · -- installed file does not exist: only the report changes
      rename_i hnex
      have hq : recordQualifies env fm = false := by
        rw [recordQualifies, hfst, heq, Bool.true_and]
        exact (Bool.not_eq_true _) ▸ hnex
      simp only [Option.some.injEq] at h
      subst h
      rw [hq]
      exact ⟨(List.append_nil s.files).symm, (List.append_nil s.product_file_ids).symm⟩
    · rename_i hnnex
      have hex : env.fileExists (env.product_out_dir ++ "/" ++ fm.installed_file) = true :=
        not_not.mp hnnex
      have hq : recordQualifies env fm = true := by
        rw [recordQualifies, hfst, heq, Bool.true_and, hex]
      rw [hq]
      split at h
      · -- Source or Prebuilt: descriptor resolution, fragments, relationships
        split at h
        · exact Option.noConfusion h
        · split at h
          · exact Option.noConfusion h
          · rename_i ext pkgs rels heqfrag
            split at h
            · simp only [Option.some.injEq] at h
              subst h
              rw [files_report_metadata_file, ids_report_metadata_file]
              exact ⟨rfl, rfl⟩
            · simp only [Option.some.injEq] at h
              subst h
              cases ext with
              | none =>
                rw [files_addRelationship, ids_addRelationship,
                  files_foldl_addRelationship, ids_foldl_addRelationship,
                  files_foldl_addPackage, ids_foldl_addPackage,
                  files_report_metadata_file, ids_report_metadata_file]
                exact ⟨rfl, rfl⟩
              | some e =>
                rw [files_addRelationship, ids_addRelationship,
                  files_foldl_addRelationship, ids_foldl_addRelationship,
                  files_foldl_addPackage, ids_foldl_addPackage,
                  files_addExternalRef, ids_addExternalRef,
                  files_report_metadata_file, ids_report_metadata_file]
                exact ⟨rfl, rfl⟩
      · -- Platform catch-all
        split at h
        · simp only [Option.some.injEq] at h
          subst h
          rw [files_addRelationship, ids_addRelationship]
          exact ⟨rfl, rfl⟩
        · simp only [Option.some.injEq] at h
          subst h
          exact ⟨rfl, rfl⟩

/-- Accumulated over the whole scan: every qualifying record contributes
exactly one File node and one product file id, in input order. -/
theorem process_sbom_files (env : Env) (records : List FileMetadata) (s sF : SbomState)
    (h : process_sbom env records s = some sF) :
    sF.files = s.files ++ (records.filter (recordQualifies env)).map (installedFileNode env) ∧
    sF.product_file_ids = s.product_file_ids ++
      (records.filter (recordQualifies env)).map (fun fm => new_file_id fm.installed_file) := by
  induction records generalizing s with
  | nil =>
    rw [process_sbom, List.foldlM_nil] at h
    obtain rfl : s = sF := Option.some.inj h
    exact ⟨(List.append_nil _).symm, (List.append_nil _).symm⟩
  | cons fm rest ih =>
    rw [process_sbom, List.foldlM_cons] at h
    cases hstep : process_installed_file env s fm with
    | none =>
      rw [hstep] at h
      exact Option.noConfusion h
    | some s1 =>
      rw [hstep] at h
      have h1 : process_sbom env rest s1 = some sF := by rw [process_sbom]; exact h
      obtain ⟨hf1, hi1⟩ := process_installed_file_files_step env s fm s1 hstep
      obtain ⟨hf2, hi2⟩ := ih s1 h1
      rw [hf2, hf1, hi2, hi1, List.filter_cons]
      by_cases hq : recordQualifies env fm = true <;>
        simp [hq, List.append_assoc]

/-- C10: after the scan, the document's file list holds exactly one File node
per record that passes the has-metadata check and exists on disk, regardless
of its classification; the product package's file-id list corresponds
one-to-one to that file list; and the final verification code digests the
checksums of exactly those installed files. -/
theorem main_loop_file_list_invariant (env : Env) (records : List FileMetadata) (sF : SbomState)
    (h : process_sbom env records (initial_state env.build_version env.product_mfr) = some sF) :
    sF.files = (records.filter (recordQualifies env)).map (installedFileNode env) ∧
    sF.product_file_ids = sF.files.map (·.id) ∧
    ∀ hsh : String → String,
      generate_package_verification_code hsh sF.files =
        hsh (String.join (sortStrings ((records.filter (recordQualifies env)).map
          (fun fm => env.checksum fm.installed_file)))) := by
  obtain ⟨hf, hi⟩ := process_sbom_files env records _ sF h
  have hfiles : sF.files = (records.filter (recordQualifies env)).map (installedFileNode env) := by
    rw [hf]
    exact List.nil_append _
  refine ⟨hfiles, ?_, ?_⟩
  · rw [hi, hfiles, List.map_map]
    exact List.nil_append _
  · intro hsh
    rw [generate_package_verification_code, hfiles, List.map_map]
    rfl

/-! Concrete run for the witness: one Platform record and one record whose
installed file is missing from disk. -/

def loopEnvW : Env :=
  { build_version := "BV", product_mfr := "M", product_out_dir := "out",
    fileExists := fun p => p ≠ "out/bin/missing", checksum := fun _ => "SHA1: aa",
    metadataExists := fun _ => false, parse := fun _ => emptyMetadata }

def loopRecordsW : List FileMetadata :=
  [{ installed_file := "bin/c", module_path := "frameworks/base", soong_module_type := "",
     is_platform_generated := "", product_copy_files := "", kernel_module_copy_files := "",
     is_prebuilt_make_module := "" },
   { installed_file := "bin/missing", module_path := "frameworks/base", soong_module_type := "",
     is_platform_generated := "", product_copy_files := "", kernel_module_copy_files := "",
     is_prebuilt_make_module := "" }]

def loopFinalW : SbomState :=
  (process_sbom loopEnvW loopRecordsW
    (initial_state loopEnvW.build_version loopEnvW.product_mfr)).getD
    (initial_state loopEnvW.build_version loopEnvW.product_mfr)

/-- Witness for C10 at the concrete run. -/
theorem main_loop_file_list_invariant_witness :
    process_sbom loopEnvW loopRecordsW
      (initial_state loopEnvW.build_version loopEnvW.product_mfr) = some loopFinalW ∧
    loopFinalW.product_file_ids = loopFinalW.files.map (·.id) := by
  refine ⟨by decide, ?_⟩
  exact (main_loop_file_list_invariant loopEnvW loopRecordsW loopFinalW (by decide)).2.1

end SbomGen
